import Mathlib

/-!
Shallow embedding of rust/qemu-api/src/qom.rs.

The Rust module is glue that builds a QOM TypeInfo record out of the
associated constants of the ObjectImpl trait, and that provides the blanket
ClassInitImpl implementation for ObjectClass, which fills the unparent slot
of the class struct.  A Rust type T implementing ObjectType and ObjectImpl
is modelled here as a record bundling the associated constants; the instance
state of T is a type parameter S.  C function pointers are modelled as
tagged values, so that the monomorphised Rust wrapper functions
(rust_instance_init, rust_instance_post_init, rust_class_init,
rust_unparent_fn) are distinguishable per TYPE_NAME.  A Rust panic (a failed
unwrap or a failed assert) is modelled as a none result.
-/

/-- Size and alignment of a Rust type, the values reported by
core::mem::size_of and core::mem::align_of. -/
structure TypeLayout where
  size : Nat
  align : Nat
deriving DecidableEq

/-- A C function pointer of type fn(*mut Object): either one of the
monomorphised Rust wrappers, tagged with the TYPE_NAME of the type the
wrapper was instantiated at, or some other extern C function. -/
inductive CObjFn where
  | rustInstanceInit (typeName : String)
  | rustInstancePostInit (typeName : String)
  | rustUnparentFn (typeName : String)
  | raw (tag : Nat)
deriving DecidableEq

/-- A C function pointer of type fn(*mut ObjectClass, *mut c_void). -/
inductive CClassFn where
  | rustClassInit (typeName : String)
  | raw (tag : Nat)
deriving DecidableEq

/-- Borrow mode of a reference in a Rust signature: a shared reference
(ampersand Self, read access, no exclusivity) or an exclusive one
(ampersand mut Self). -/
inductive AccessMode where
  | shared
  | exclusive
deriving DecidableEq

/-- Data of the ObjectType trait for one type: the TYPE_NAME constant and
the layouts of the instance struct and of the associated Class struct. -/
structure ObjectType where
  TYPE_NAME : String
  instance_layout : TypeLayout
  class_layout : TypeLayout
deriving DecidableEq

/-- Data of the ObjectImpl trait for one type whose instance state is S:
the ObjectType data of the type itself and of ParentType, plus the
associated constants, with the same defaults as in the Rust source.
INSTANCE_INIT and INSTANCE_POST_INIT both take an exclusive reference in
the source, so both are modelled as state transformers S to S; UNPARENT
takes a shared reference, so it is modelled as a pure observation. -/
structure ObjectImpl (S : Type) extends ObjectType where
  ParentType : ObjectType
  ABSTRACT : Bool := false
  INSTANCE_FINALIZE : Option CObjFn := none
  INSTANCE_INIT : Option (S → S) := none
  INSTANCE_POST_INIT : Option (S → S) := none
  CLASS_BASE_INIT : Option CClassFn := none
  UNPARENT : Option (S → Unit) := none

/-- The TypeInfo struct from the C bindings, with the fields that qom.rs
fills in.  Null pointers are modelled as none. -/
structure TypeInfo where
  name : String
  parent : String
  instance_size : Nat
  instance_align : Nat
  instance_init : Option CObjFn
  instance_post_init : Option CObjFn
  instance_finalize : Option CObjFn
  abstract_ : Bool
  class_size : Nat
  class_init : Option CClassFn
  class_base_init : Option CClassFn
  class_data : Option Nat
  interfaces : Option Nat
deriving DecidableEq

/-- The ObjectClass struct from the C bindings.  qom.rs only ever writes the
unparent slot; the remaining C fields are not named anywhere in the Rust
source and are abstracted into one opaque payload that the embedding never
inspects. -/
structure ObjectClass where
  unparent : Option CObjFn
  rest : Nat
deriving DecidableEq

/-- ObjectImpl::TYPE_INFO, translated field by field from the associated
const in qom.rs: name and parent from the TYPE_NAME constants, sizes and
alignment from the layouts, wrappers installed for instance_init and
instance_post_init exactly when the corresponding constant is Some,
instance_finalize, abstract_ and class_base_init copied through, class_init
always the monomorphised rust_class_init wrapper, class_data and interfaces
null. -/
def ObjectImpl.TYPE_INFO {S : Type} (T : ObjectImpl S) : TypeInfo where
  name := T.TYPE_NAME
  parent := T.ParentType.TYPE_NAME
  instance_size := T.instance_layout.size
  instance_align := T.instance_layout.align
  instance_init :=
    match T.INSTANCE_INIT with
    | none => none
    | some _ => some (CObjFn.rustInstanceInit T.TYPE_NAME)
  instance_post_init :=
    match T.INSTANCE_POST_INIT with
    | none => none
    | some _ => some (CObjFn.rustInstancePostInit T.TYPE_NAME)
  instance_finalize := T.INSTANCE_FINALIZE
  abstract_ := T.ABSTRACT
  class_size := T.class_layout.size
  class_init := some (CClassFn.rustClassInit T.TYPE_NAME)
  class_base_init := T.CLASS_BASE_INIT
  class_data := none
  interfaces := none

/-- The blanket impl of ClassInitImpl of ObjectClass for T: ObjectImpl,
translated from qom.rs: when T::UNPARENT is Some, the unparent slot of the
class struct is set to the monomorphised rust_unparent_fn wrapper; nothing
else is written. -/
def objectClass_class_init {S : Type} (T : ObjectImpl S) (oc : ObjectClass) :
    ObjectClass :=
  if T.UNPARENT.isSome then
    { oc with unparent := some (CObjFn.rustUnparentFn T.TYPE_NAME) }
  else
    oc

/-- The wrapper rust_instance_init of T: it unwraps T::INSTANCE_INIT and
applies it to the instance.  A none result models the panic of unwrap when
the constant is None. -/
def rust_instance_init {S : Type} (T : ObjectImpl S) (obj : S) : Option S :=
  match T.INSTANCE_INIT with
  | none => none
  | some f => some (f obj)

/-- The wrapper rust_instance_post_init of T: it unwraps
T::INSTANCE_POST_INIT and applies it to the instance.  A none result models
the panic of unwrap when the constant is None. -/
def rust_instance_post_init {S : Type} (T : ObjectImpl S) (obj : S) :
    Option S :=
  match T.INSTANCE_POST_INIT with
  | none => none
  | some f => some (f obj)

/-- The wrapper rust_class_init of T: it casts the class pointer to
T::Class and calls T::class_init on it; at the ObjectClass level this is
the blanket implementation above. -/
def rust_class_init {S : Type} (T : ObjectImpl S) (klass : ObjectClass) :
    ObjectClass :=
  objectClass_class_init T klass

/-- The wrapper rust_unparent_fn of T: the instance pointer is modelled as
Option S with none for a null pointer.  The wrapper first asserts that the
pointer is non-null, then unwraps T::UNPARENT and calls it on a shared
reference to the instance.  A none result models a panic, of the assert on
a null pointer or of the unwrap when the constant is None. -/
def rust_unparent_fn {S : Type} (T : ObjectImpl S) (dev : Option S) :
    Option Unit :=
  match dev with
  | none => none
  | some state =>
    match T.UNPARENT with
    | none => none
    | some f => some (f state)

/-- Receiver mode declared for ObjectImpl::INSTANCE_POST_INIT in the
source: the constant has type Option of fn taking ampersand mut Self, an
exclusive reference. -/
def INSTANCE_POST_INIT_receiver_mode : AccessMode := AccessMode.exclusive

/-- Borrow mode of the argument that rust_instance_post_init passes to the
hook in the source: it reborrows the raw pointer exclusively before the
call, so the hook receives an exclusive reference. -/
def rust_instance_post_init_passed_mode : AccessMode := AccessMode.exclusive

/-- Receiver mode declared for ObjectImpl::UNPARENT in the source: the
constant has type Option of fn taking ampersand Self, a shared
reference. -/
def UNPARENT_receiver_mode : AccessMode := AccessMode.shared

/-- Borrow mode of the argument that rust_unparent_fn passes to the hook in
the source: NonNull::as_ref yields a shared reference. -/
def rust_unparent_fn_passed_mode : AccessMode := AccessMode.shared

/-- One step of class-table construction, as described by the spec for the
QOM core. -/
inductive BuildStep where
  | copyParentTable
  | runClassBaseInit
  | runClassInit
deriving DecidableEq

/-- Modelled from the spec: the class-table builder of the QOM core is C
code that is not part of this Rust module; qom.rs only hands it the hooks
through TypeInfo.  Per the spec, building the class table for a type first
copies the parent table into the class struct, then invokes the
class-base-init hook when the descriptor carries one, then invokes the
class-init hook when the descriptor carries one. -/
def classTableBuildTrace (ti : TypeInfo) : List BuildStep :=
  [BuildStep.copyParentTable]
    ++ (match ti.class_base_init with
        | none => []
        | some _ => [BuildStep.runClassBaseInit])
    ++ (match ti.class_init with
        | none => []
        | some _ => [BuildStep.runClassInit])

/-- The ObjectType data of the root type Object, used as a parent in the
concrete examples below. -/
def objectRootType : ObjectType where
  TYPE_NAME := "object"
  instance_layout := { size := 40, align := 8 }
  class_layout := { size := 160, align := 8 }

/-- A concrete ObjectImpl with every optional hook present, for witnesses:
instance state is a Nat counter. -/
def exampleHooked : ObjectImpl Nat where
  TYPE_NAME := "ex-dev"
  instance_layout := { size := 48, align := 8 }
  class_layout := { size := 160, align := 8 }
  ParentType := objectRootType
  ABSTRACT := false
  INSTANCE_FINALIZE := some (CObjFn.raw 3)
  INSTANCE_INIT := some (fun s => s + 1)
  INSTANCE_POST_INIT := some (fun s => s + 2)
  CLASS_BASE_INIT := some (CClassFn.raw 7)
  UNPARENT := some (fun _ => ())

/-- A concrete ObjectImpl with every optional constant left at its default,
for witnesses. -/
def exampleBare : ObjectImpl Nat where
  TYPE_NAME := "ex-bare"
  instance_layout := { size := 40, align := 8 }
  class_layout := { size := 160, align := 8 }
  ParentType := objectRootType

/-- An ObjectClass whose unparent slot is empty, the zero-filled state the
registry hands to class_init for the root chain. -/
def emptyObjectClass : ObjectClass where
  unparent := none
  rest := 11

/-- An ObjectClass whose unparent slot was already filled by the class-init
of a parent class. -/
def parentFilledObjectClass : ObjectClass where
  unparent := some (CObjFn.raw 5)
  rest := 9

/-- Claim C1: for every type T implementing ObjectImpl, T::TYPE_INFO
carries exactly the identity and layout data of T: its name equals
T::TYPE_NAME, its parent equals the TYPE_NAME of T::ParentType, its
instance size and alignment equal size_of and align_of of T, its class
size equals size_of of T::Class, and its abstract flag equals
T::ABSTRACT. -/
theorem c1_type_info_identity_and_layout {S : Type} (T : ObjectImpl S) :
    T.TYPE_INFO.name = T.TYPE_NAME ∧
    T.TYPE_INFO.parent = T.ParentType.TYPE_NAME ∧
    T.TYPE_INFO.instance_size = T.instance_layout.size ∧
    T.TYPE_INFO.instance_align = T.instance_layout.align ∧
    T.TYPE_INFO.class_size = T.class_layout.size ∧
    T.TYPE_INFO.abstract_ = T.ABSTRACT :=
  ⟨rfl, rfl, rfl, rfl, rfl, rfl⟩

/-- Claim C2: starting from the empty unparent slot the registry provides,
class_init of the blanket ClassInitImpl of ObjectClass sets the slot to
Some of the wrapper exactly when T::UNPARENT is Some, and otherwise leaves
the slot empty. -/
theorem c2_unparent_exposed_iff_provided {S : Type} (T : ObjectImpl S)
    (oc : ObjectClass) (h : oc.unparent = none) :
    ((objectClass_class_init T oc).unparent
        = some (CObjFn.rustUnparentFn T.TYPE_NAME) ↔ T.UNPARENT.isSome) ∧
    (T.UNPARENT = none → (objectClass_class_init T oc).unparent = none) := by
  constructor
  · constructor
    · intro hset
      by_contra hnone
      simp only [objectClass_class_init] at hset
      rw [if_neg hnone, h] at hset
      exact Option.noConfusion hset
    · intro hsome
      simp [objectClass_class_init, hsome]
  · intro hnone
    simp [objectClass_class_init, hnone, h]

/-- Witness for claim C2 at a concrete type with UNPARENT provided and the
empty class struct. -/
theorem c2_unparent_exposed_iff_provided_witness :
    emptyObjectClass.unparent = none ∧
    (((objectClass_class_init exampleHooked emptyObjectClass).unparent
        = some (CObjFn.rustUnparentFn "ex-dev")
        ↔ exampleHooked.UNPARENT.isSome) ∧
      (exampleHooked.UNPARENT = none →
        (objectClass_class_init exampleHooked emptyObjectClass).unparent
          = none)) :=
  ⟨rfl, c2_unparent_exposed_iff_provided exampleHooked emptyObjectClass rfl⟩

/-- Claim C3: each optional initialization hook is surfaced in T::TYPE_INFO
by an explicit presence check: instance_init holds the generated wrapper
exactly when T::INSTANCE_INIT is Some, instance_post_init holds its wrapper
exactly when T::INSTANCE_POST_INIT is Some, and class_base_init and
instance_finalize equal T::CLASS_BASE_INIT and T::INSTANCE_FINALIZE. -/
theorem c3_optional_hooks_surfaced {S : Type} (T : ObjectImpl S) :
    (T.TYPE_INFO.instance_init
        = some (CObjFn.rustInstanceInit T.TYPE_NAME)
      ↔ T.INSTANCE_INIT.isSome) ∧
    (T.TYPE_INFO.instance_init.isSome ↔ T.INSTANCE_INIT.isSome) ∧
    (T.TYPE_INFO.instance_post_init
        = some (CObjFn.rustInstancePostInit T.TYPE_NAME)
      ↔ T.INSTANCE_POST_INIT.isSome) ∧
    (T.TYPE_INFO.instance_post_init.isSome ↔ T.INSTANCE_POST_INIT.isSome) ∧
    T.TYPE_INFO.class_base_init = T.CLASS_BASE_INIT ∧
    T.TYPE_INFO.instance_finalize = T.INSTANCE_FINALIZE := by
  refine ⟨?_, ?_, ?_, ?_, rfl, rfl⟩ <;>
    cases hii : T.INSTANCE_INIT <;> cases hpi : T.INSTANCE_POST_INIT <;>
      simp [ObjectImpl.TYPE_INFO, hii, hpi]

/-- Claim C4: when T::UNPARENT is None, class_init of the blanket
ClassInitImpl of ObjectClass leaves the class struct entirely unchanged:
the unparent slot keeps whatever the class-init of the parent installed and
no other field is modified. -/
theorem c4_class_init_frame {S : Type} (T : ObjectImpl S) (oc : ObjectClass)
    (h : T.UNPARENT = none) :
    objectClass_class_init T oc = oc := by
  simp [objectClass_class_init, h]

/-- Witness for claim C4 at a concrete type without UNPARENT and a class
struct whose slot a parent already filled. -/
theorem c4_class_init_frame_witness :
    exampleBare.UNPARENT = none ∧
    objectClass_class_init exampleBare parentFilledObjectClass
      = parentFilledObjectClass :=
  ⟨rfl, c4_class_init_frame exampleBare parentFilledObjectClass rfl⟩

/-- Claim C5: class-table construction at the ObjectClass level is
deterministic and idempotent: equal starting class structs yield equal
results, and running class_init twice yields the same contents as running
it once. -/
theorem c5_class_init_deterministic_idempotent {S : Type} (T : ObjectImpl S)
    (oc1 oc2 : ObjectClass) (h : oc1 = oc2) :
    objectClass_class_init T oc1 = objectClass_class_init T oc2 ∧
    objectClass_class_init T (objectClass_class_init T oc1)
      = objectClass_class_init T oc1 := by
  subst h
  refine ⟨rfl, ?_⟩
  by_cases hu : T.UNPARENT.isSome <;> simp [objectClass_class_init, hu]

/-- Witness for claim C5 at a concrete type and class struct. -/
theorem c5_class_init_deterministic_idempotent_witness :
    emptyObjectClass = emptyObjectClass ∧
    (objectClass_class_init exampleHooked emptyObjectClass
        = objectClass_class_init exampleHooked emptyObjectClass ∧
      objectClass_class_init exampleHooked
          (objectClass_class_init exampleHooked emptyObjectClass)
        = objectClass_class_init exampleHooked emptyObjectClass) :=
  ⟨rfl, c5_class_init_deterministic_idempotent exampleHooked
    emptyObjectClass emptyObjectClass rfl⟩

/-- Claim C6: when the descriptor of T carries a class-base-init hook,
class-table construction runs that hook strictly after the parent table has
been copied in and strictly before the class-init hook of T itself. -/
theorem c6_class_base_init_ordering {S : Type} (T : ObjectImpl S)
    (h : T.TYPE_INFO.class_base_init.isSome) :
    ∃ i j k : Nat, i < j ∧ j < k ∧
      (classTableBuildTrace T.TYPE_INFO)[i]?
        = some BuildStep.copyParentTable ∧
      (classTableBuildTrace T.TYPE_INFO)[j]?
        = some BuildStep.runClassBaseInit ∧
      (classTableBuildTrace T.TYPE_INFO)[k]?
        = some BuildStep.runClassInit := by
  obtain ⟨b, hb⟩ := Option.isSome_iff_exists.mp h
  have ht : classTableBuildTrace T.TYPE_INFO
      = [BuildStep.copyParentTable, BuildStep.runClassBaseInit,
          BuildStep.runClassInit] := by
    have hb2 : T.CLASS_BASE_INIT = some b := hb
    simp [classTableBuildTrace, ObjectImpl.TYPE_INFO, hb2]
  exact ⟨0, 1, 2, by omega, by omega, by rw [ht]; rfl, by rw [ht]; rfl,
    by rw [ht]; rfl⟩

/-- Witness for claim C6 at a concrete type carrying a class-base-init
hook. -/
theorem c6_class_base_init_ordering_witness :
    exampleHooked.TYPE_INFO.class_base_init.isSome ∧
    (∃ i j k : Nat, i < j ∧ j < k ∧
      (classTableBuildTrace exampleHooked.TYPE_INFO)[i]?
        = some BuildStep.copyParentTable ∧
      (classTableBuildTrace exampleHooked.TYPE_INFO)[j]?
        = some BuildStep.runClassBaseInit ∧
      (classTableBuildTrace exampleHooked.TYPE_INFO)[k]?
        = some BuildStep.runClassInit) :=
  ⟨rfl, c6_class_base_init_ordering exampleHooked rfl⟩

/-- Claim C7, recorded against the source as written: the source declares
INSTANCE_POST_INIT with an exclusive receiver and the wrapper
rust_instance_post_init passes the instance by exclusive reference, not by
shared reference, contradicting both the claim and the FIXME in the source
itself. -/
theorem c7_post_init_receiver_exclusive_in_code :
    INSTANCE_POST_INIT_receiver_mode = AccessMode.exclusive ∧
    rust_instance_post_init_passed_mode = AccessMode.exclusive ∧
    rust_instance_post_init_passed_mode ≠ AccessMode.shared := by
  refine ⟨rfl, rfl, ?_⟩
  intro hcontra
  exact AccessMode.noConfusion hcontra

/-- Claim C8: the unwraps inside the generated instance-init and
instance-post-init wrappers can never panic, because TYPE_INFO installs
each wrapper exactly when the corresponding constant is Some: whenever the
wrapper is reachable through TYPE_INFO, running it on any instance
succeeds. -/
theorem c8_wrapper_unwraps_never_panic {S : Type} (T : ObjectImpl S) :
    (T.TYPE_INFO.instance_init.isSome →
      ∀ s : S, (rust_instance_init T s).isSome) ∧
    (T.TYPE_INFO.instance_post_init.isSome →
      ∀ s : S, (rust_instance_post_init T s).isSome) := by
  constructor
  · intro h s
    cases hii : T.INSTANCE_INIT with
    | none => simp [ObjectImpl.TYPE_INFO, hii] at h
    | some f => simp [rust_instance_init, hii]
  · intro h s
    cases hpi : T.INSTANCE_POST_INIT with
    | none => simp [ObjectImpl.TYPE_INFO, hpi] at h
    | some f => simp [rust_instance_post_init, hpi]

/-- Witness for claim C8 at a concrete type carrying both hooks. -/
theorem c8_wrapper_unwraps_never_panic_witness :
    exampleHooked.TYPE_INFO.instance_init.isSome ∧
    (rust_instance_init exampleHooked 0).isSome ∧
    exampleHooked.TYPE_INFO.instance_post_init.isSome ∧
    (rust_instance_post_init exampleHooked 0).isSome :=
  ⟨rfl, (c8_wrapper_unwraps_never_panic exampleHooked).1 rfl 0,
    rfl, (c8_wrapper_unwraps_never_panic exampleHooked).2 rfl 0⟩

/-- Claim C9: rust_unparent_fn is installed in the class table only when
T::UNPARENT is Some, so under that installation its unwrap never panics on
a non-null instance; on a null instance the assert fires before the hook is
invoked; and the hook receives the instance by shared reference. -/
theorem c9_unparent_wrapper_never_panics {S : Type} (T : ObjectImpl S)
    (oc : ObjectClass) (h0 : oc.unparent = none)
    (h1 : (objectClass_class_init T oc).unparent
        = some (CObjFn.rustUnparentFn T.TYPE_NAME)) :
    (∀ s : S, (rust_unparent_fn T (some s)).isSome) ∧
    rust_unparent_fn T (none : Option S) = none ∧
    rust_unparent_fn_passed_mode = AccessMode.shared := by
  cases hu : T.UNPARENT with
  | none =>
    rw [objectClass_class_init, hu] at h1
    simp [h0] at h1
  | some f =>
    exact ⟨fun s => by simp [rust_unparent_fn, hu], rfl, rfl⟩

/-- Witness for claim C9 at a concrete type with UNPARENT provided and the
empty class struct. -/
theorem c9_unparent_wrapper_never_panics_witness :
    emptyObjectClass.unparent = none ∧
    (objectClass_class_init exampleHooked emptyObjectClass).unparent
      = some (CObjFn.rustUnparentFn "ex-dev") ∧
    ((∀ s : Nat, (rust_unparent_fn exampleHooked (some s)).isSome) ∧
      rust_unparent_fn exampleHooked (none : Option Nat) = none ∧
      rust_unparent_fn_passed_mode = AccessMode.shared) :=
  ⟨rfl, rfl,
    c9_unparent_wrapper_never_panics exampleHooked emptyObjectClass rfl rfl⟩

/-- Claim C10: unlike the other hooks, class_init is never optional:
T::TYPE_INFO.class_init is always Some of the monomorphised rust_class_init
wrapper. -/
theorem c10_class_init_always_registered {S : Type} (T : ObjectImpl S) :
    T.TYPE_INFO.class_init = some (CClassFn.rustClassInit T.TYPE_NAME) :=
  rfl
